import Mathlib

/-
Shallow embedding of `src/app.py` (streamlit-app): a desktop-diligence
pipeline that resolves company names to tickers, fetches financial data,
and renders multi-sheet spreadsheet reports.

Modelling conventions:
* Remote services are oracles passed in an `Env` (the spec's injected
  capability design): the search endpoint's response, the yfinance
  provider's per-field results, whether the Excel serialization raises,
  and the current date (already formatted `%Y%m%d`).
* Python exceptions that the code does NOT catch are `Except.error`;
  code that catches exceptions internally is total.
* A pandas cell is either numeric-coercible (`RawCell.num v`, covering
  numbers and numeric strings accepted by `pd.to_numeric`), a
  non-numeric / unparseable value (`RawCell.nonnum`), or missing / NaN
  (`RawCell.missing`); `pd.to_numeric(errors:=coerce)` sends the last
  two to NaN, rendered as a blank spreadsheet cell.
* Machine floats are modelled by `ℚ` with exact division by 1000000.
-/

namespace App

/-- A scalar spreadsheet cell value: a string, a number, or blank. -/
inductive Cell where
  | s (v : String)
  | n (v : ℚ)
  | blank
deriving DecidableEq, Repr

/-- A raw cell of a provider statement table, as seen by `pd.to_numeric`. -/
inductive RawCell where
  | num (v : ℚ)
  | nonnum (v : String)
  | missing
deriving DecidableEq, Repr

/-- `pd.to_numeric(x, errors:=coerce)`: numeric-coercible values keep
their numeric value, everything else becomes NaN (here `none`). -/
def RawCell.coerce : RawCell → Option ℚ
  | .num v => some v
  | .nonnum _ => none
  | .missing => none

/-- A pandas DataFrame as yfinance returns a statement table: a row index
of line-item labels, column labels (period labels), and the cell matrix. -/
structure Table where
  rowLabels : List String
  colLabels : List String
  cells : List (List RawCell)
deriving DecidableEq, Repr

/-- pandas `df.empty`: true when either axis has length 0. -/
def Table.isEmpty (t : Table) : Bool := t.rowLabels.isEmpty || t.colLabels.isEmpty

/-- The provider's `info` dict: insertion-ordered attribute/value pairs. -/
abbrev Profile := List (String × Cell)

/-- The dict built by `get_yfinance_data` on success (a full
FinancialRecord): profile, six statement tables, and a currency value. -/
structure FinRecord where
  info : Profile
  financials : Table
  balance_sheet : Table
  cashflow : Table
  quarterly_financials : Table
  quarterly_balance_sheet : Table
  quarterly_cashflow : Table
  currency : Cell
deriving DecidableEq, Repr

/-- One entry of the search endpoint's `quotes` array; either field may be
absent from the JSON object (`item.get` then yields Python `None`). -/
structure Quote where
  quoteType : Option String
  symbol : Option String
deriving DecidableEq, Repr

/-- What the ticker-search call produces: an exception anywhere in
`requests.get` / `.json()` (network failure, non-JSON body), or a parsed
body whose `quotes` array is the given list (a body without a `quotes`
key parses as the empty list, per `data.get("quotes", [])`). -/
inductive SearchResponse where
  | exn
  | ok (quotes : List Quote)
deriving DecidableEq, Repr

/-- The loop in `find_ticker`: scan `quotes`, and on the FIRST entry whose
`quoteType` equals "EQUITY" return that entry's `symbol` — which is
Python `None` (`none`) when the entry has no symbol field. -/
def findTickerLoop : List Quote → Option String
  | [] => none
  | item :: rest =>
    if item.quoteType = some "EQUITY" then item.symbol else findTickerLoop rest

/-- `find_ticker` (src/app.py lines 14-26): any exception is caught and
reported, yielding `None`; otherwise the first-EQUITY scan runs. -/
def find_ticker : SearchResponse → Option String
  | .exn => none
  | .ok quotes => findTickerLoop quotes

/-- The yfinance `Ticker` object as an oracle: each lazily-fetched
property either yields its value or raises (`Except.error`). `t.info` is
one property, read consistently on both of its accesses. -/
structure YfTicker where
  info : Except Unit Profile
  financials : Except Unit Table
  balance_sheet : Except Unit Table
  cashflow : Except Unit Table
  quarterly_financials : Except Unit Table
  quarterly_balance_sheet : Except Unit Table
  quarterly_cashflow : Except Unit Table

/-- True when every property access of the provider object succeeds. -/
def YfTicker.allOk (t : YfTicker) : Bool :=
  t.info.isOk && t.financials.isOk && t.balance_sheet.isOk && t.cashflow.isOk
    && t.quarterly_financials.isOk && t.quarterly_balance_sheet.isOk
    && t.quarterly_cashflow.isOk

/-- `get_yfinance_data` (src/app.py lines 29-45): builds the full dict in
one try-block; any exception while reading a property yields the empty
dict (`none`), never a partial record. The currency is
`t.info.get("financialCurrency", "Unknown")`. -/
def get_yfinance_data (t : YfTicker) : Option FinRecord :=
  match (do
    let info ← t.info
    let f ← t.financials
    let b ← t.balance_sheet
    let c ← t.cashflow
    let qf ← t.quarterly_financials
    let qb ← t.quarterly_balance_sheet
    let qc ← t.quarterly_cashflow
    let info2 ← t.info
    pure { info := info, financials := f, balance_sheet := b, cashflow := c,
           quarterly_financials := qf, quarterly_balance_sheet := qb,
           quarterly_cashflow := qc,
           currency := (info2.lookup "financialCurrency").getD (Cell.s "Unknown")
           : FinRecord } : Except Unit FinRecord) with
  | .ok r => some r
  | .error _ => none

/-- A built spreadsheet sheet: the column-header row written by
`to_excel(index:=False)` and the data rows beneath it. -/
structure Sheet where
  cols : List String
  rows : List (List Cell)
deriving DecidableEq, Repr

/-- A workbook: named sheets in the order they were written. -/
abbrev Workbook := List (String × Sheet)

/-- `convert_to_millions` (src/app.py lines 54-58): per column,
`pd.to_numeric(df[col], errors:=coerce) / 1e6`; cell-wise this coerces
each cell and divides the coercible ones by 1000000. -/
def convert_to_millions (t : Table) : List (List (Option ℚ)) :=
  t.cells.map (fun row => row.map (fun c => c.coerce.map (fun v => v / 1000000)))

/-- How a numeric-or-NaN pandas value lands in a written cell: NaN is a
blank cell, a number is itself. -/
def optCell : Option ℚ → Cell
  | some v => .n v
  | none => .blank

/-- Python `str(value)` as used when a scalar lands in a rendered string. -/
def Cell.pyStr : Cell → String
  | .s v => v
  | .n v => toString v
  | .blank => "nan"

/-- `write_financial_sheet` (src/app.py lines 70-79): convert to millions,
`reset_index` (promoting the unnamed row index to a leading column named
"index"), prepend a one-row header note whose first column is
`Currency: <currency> (in millions)` and whose remaining
`df_millions.shape[1] - 1` cells are empty strings, then write. -/
def write_financial_sheet (currency : String) (df : Table) : Sheet :=
  let m := convert_to_millions df
  let dataRows := (df.rowLabels.zip m).map (fun p => Cell.s p.1 :: p.2.map optCell)
  let headerRow :=
    Cell.s ("Currency: " ++ currency ++ " (in millions)")
      :: List.replicate df.colLabels.length (Cell.s "")
  { cols := "index" :: df.colLabels, rows := headerRow :: dataRows }

/-- One guarded sheet write: `if <key> in data and not data[<key>].empty`. -/
def optSheet (cond : Bool) (nm : String) (sh : Sheet) : Workbook :=
  if cond then [(nm, sh)] else []

/-- `save_to_excel` (src/app.py lines 48-99): file name from ticker and
the current date, Overview sheet from the `info` dict (the guard
`"info" in data and isinstance(data["info"], dict)` always holds for a
record built by `get_yfinance_data`, including when the dict is empty),
then the six statement sheets, each written only when its table is
non-empty. Returns (workbook, filename). -/
def save_to_excel (company_name ticker : String) (data : FinRecord)
    (today : String) : Workbook × String :=
  let filename := ticker ++ "_public_diligence_" ++ today ++ ".xlsx"
  let currency := data.currency.pyStr
  let overview : Sheet :=
    { cols := ["Attribute", "Value"],
      rows := data.info.map (fun kv => [Cell.s kv.1, kv.2]) }
  let sheets : Workbook :=
    [("Overview", overview)]
      ++ optSheet (!data.financials.isEmpty) "Annual_Income"
          (write_financial_sheet currency data.financials)
      ++ optSheet (!data.balance_sheet.isEmpty) "Annual_Balance"
          (write_financial_sheet currency data.balance_sheet)
      ++ optSheet (!data.cashflow.isEmpty) "Annual_Cashflow"
          (write_financial_sheet currency data.cashflow)
      ++ optSheet (!data.quarterly_financials.isEmpty) "Quarterly_Income"
          (write_financial_sheet currency data.quarterly_financials)
      ++ optSheet (!data.quarterly_balance_sheet.isEmpty) "Quarterly_Balance"
          (write_financial_sheet currency data.quarterly_balance_sheet)
      ++ optSheet (!data.quarterly_cashflow.isEmpty) "Quarterly_Cashflow"
          (write_financial_sheet currency data.quarterly_cashflow)
  (sheets, filename)

/-- The sheet names of a workbook, in emission order. -/
def sheetNames (wb : Workbook) : List String := wb.map Prod.fst

/-- Python truthiness of the resolver's result: `if not ticker` holds for
`None` and for the empty string. -/
def pyFalsy : Option String → Bool
  | none => true
  | some s => s = ""

/-- Per-company outcome: a downloadable Report (workbook bytes plus file
name) or a user-visible notice (`st.warning`). -/
inductive Outcome where
  | report (wb : Workbook) (filename : String)
  | notice (msg : String)
deriving DecidableEq, Repr

/-- One company's result plus the tickers the Financial Data Fetcher was
actually invoked on during its processing (instrumentation). -/
structure StepResult where
  outcome : Outcome
  fetched : List String
deriving DecidableEq, Repr

/-- The ambient world for one batch run: search responses per company
name, a provider object per ticker, whether the Excel writer raises
during that company's report serialization, and today's `%Y%m%d` date. -/
structure Env where
  search : String → SearchResponse
  provider : String → YfTicker
  writeFails : String → Bool
  today : String

/-- `run_public_diligence` (src/app.py lines 102-114): resolve, and on a
falsy ticker warn and stop; fetch, and on an empty dict warn and stop;
otherwise build the report. The Excel-writer block performs real I/O
inside `save_to_excel` and nothing catches its exceptions, so a
serialization failure escapes as `Except.error`. -/
def run_public_diligence (env : Env) (company : String) : Except Unit StepResult :=
  match find_ticker (env.search company) with
  | none => .ok ⟨.notice ("Ticker not found for " ++ company), []⟩
  | some t =>
    if t = "" then .ok ⟨.notice ("Ticker not found for " ++ company), []⟩
    else
      match get_yfinance_data (env.provider t) with
      | none => .ok ⟨.notice ("Could not fetch financial data for " ++ company), [t]⟩
      | some rec =>
        if env.writeFails company then .error ()
        else
          let r := save_to_excel company t rec env.today
          .ok ⟨.report r.1 r.2, [t]⟩

/-- The batch loop (src/app.py lines 123-138): strictly sequential over
the parsed company list; each iteration's outcome is the report success
path or the notice issued inside `run_public_diligence`. An exception
escaping `run_public_diligence` is not caught and aborts the loop. -/
def runBatch (env : Env) : List String → Except Unit (List Outcome)
  | [] => .ok []
  | c :: rest =>
    match run_public_diligence env c with
    | .error e => .error e
    | .ok r =>
      match runBatch env rest with
      | .error e => .error e
      | .ok outs => .ok (r.outcome :: outs)

/-! Concrete fixtures used by counterexamples and witnesses. -/

/-- A statement table the provider does not publish: both axes empty. -/
def emptyTable : Table := ⟨[], [], []⟩

/-- A 1×2 statement table: line item "Goodwill" with a non-numeric cell
"N/A" and a numeric cell 2000000. -/
def sampleTable : Table :=
  ⟨["Goodwill"], ["2023-12-31", "2022-12-31"],
   [[RawCell.nonnum "N/A", RawCell.num 2000000]]⟩

/-- A fetched record whose profile dict is empty and whose tables are all
empty. -/
def emptyInfoRec : FinRecord :=
  ⟨[], emptyTable, emptyTable, emptyTable, emptyTable, emptyTable, emptyTable,
   Cell.s "Unknown"⟩

/-- A provider object whose every property access succeeds, with an empty
profile and empty tables. -/
def okTicker : YfTicker :=
  ⟨.ok [], .ok emptyTable, .ok emptyTable, .ok emptyTable, .ok emptyTable,
   .ok emptyTable, .ok emptyTable⟩

/-- A provider object whose balance-sheet access raises. -/
def badTicker : YfTicker :=
  ⟨.ok [("financialCurrency", Cell.s "USD")], .ok emptyTable, .error (),
   .ok emptyTable, .ok emptyTable, .ok emptyTable, .ok emptyTable⟩

/-- A search quote: an equity with a usable symbol. -/
def aaplQuote : Quote := ⟨some "EQUITY", some "AAPL"⟩

/-- A search quote: an equity entry with no symbol field. -/
def noSymQuote : Quote := ⟨some "EQUITY", none⟩

/-- An environment in which company "A" resolves and fetches fine but its
report serialization raises, while "B" simply finds no quotes. -/
def envAbort : Env :=
  { search := fun c => if c = "A" then .ok [aaplQuote] else .ok [],
    provider := fun _ => okTicker,
    writeFails := fun c => c = "A",
    today := "20261012" }

/-- Like `envAbort` but serialization never fails. -/
def envGood : Env :=
  { search := fun c => if c = "A" then .ok [aaplQuote] else .ok [],
    provider := fun _ => okTicker,
    writeFails := fun _ => false,
    today := "20261012" }

/-- An environment whose search result for any company starts with an
EQUITY entry carrying no symbol, followed by an EQUITY entry with a
usable symbol. -/
def envFalsyFirst : Env :=
  { search := fun _ => .ok [noSymQuote, ⟨some "EQUITY", some "MSFT"⟩],
    provider := fun _ => okTicker,
    writeFails := fun _ => false,
    today := "20261012" }

/-! Helper lemmas shared by the claim theorems. -/

/-- The resolver loop is exactly "first entry whose quoteType is EQUITY,
then that entry's symbol field". -/
lemma findTickerLoop_eq_find? (qs : List Quote) :
    findTickerLoop qs
      = (qs.find? (fun q => decide (q.quoteType = some "EQUITY"))).bind Quote.symbol := by
  induction qs with
  | nil => rfl
  | cons q rest ih =>
    by_cases h : q.quoteType = some "EQUITY" <;>
      simp [findTickerLoop, List.find?_cons, h, ih]

/-- A falsy resolver result makes `run_public_diligence` emit the
not-found notice, with no fetch performed. -/
lemma run_pd_notfound (env : Env) (company : String)
    (h : pyFalsy (find_ticker (env.search company)) = true) :
    run_public_diligence env company
      = .ok ⟨.notice ("Ticker not found for " ++ company), []⟩ := by
  cases hf : find_ticker (env.search company) with
  | none => simp [run_public_diligence, hf]
  | some t =>
    rw [hf] at h
    simp only [pyFalsy, decide_eq_true_eq] at h
    simp [run_public_diligence, hf, h]

/-- When the Excel writer does not raise for a company, its processing
returns normally (with some outcome). -/
lemma run_pd_ok (env : Env) (company : String)
    (h : env.writeFails company = false) :
    ∃ r, run_public_diligence env company = .ok r := by
  unfold run_public_diligence
  cases hf : find_ticker (env.search company) with
  | none => exact ⟨_, rfl⟩
  | some t =>
    by_cases ht : t = ""
    · simp [ht]
    · simp only [if_neg ht]
      cases hg : get_yfinance_data (env.provider t) with
      | none => exact ⟨_, rfl⟩
      | some rec => simp [h]

/-! Claim theorems. -/

/-- C5: `resolve(companyName)` returns the symbol of the first entry in
the search response whose classification tag equals "EQUITY" (and no
later entry: no fuzzy ranking or disambiguation), and returns NotFound
(`none`) when no such entry exists or when the network call / parse
fails. -/
theorem c5_resolver_first_equity :
    (∀ quotes : List Quote,
      find_ticker (SearchResponse.ok quotes)
        = (quotes.find? (fun q => decide (q.quoteType = some "EQUITY"))).bind Quote.symbol)
    ∧ find_ticker SearchResponse.exn = none :=
  ⟨fun qs => findTickerLoop_eq_find? qs, rfl⟩

/-- C4: `fetch(ticker)` is atomic: if any provider property access
raises, the result is the empty record (`none`, no partial data);
otherwise a full FinancialRecord with profile, all six statement tables,
and a currency defaulting to "Unknown" when the profile key
"financialCurrency" is absent. -/
theorem c4_fetch_atomic (t : YfTicker) :
    (t.allOk = false → get_yfinance_data t = none) ∧
    (∀ info f b c qf qb qc,
      t.info = .ok info → t.financials = .ok f → t.balance_sheet = .ok b →
      t.cashflow = .ok c → t.quarterly_financials = .ok qf →
      t.quarterly_balance_sheet = .ok qb → t.quarterly_cashflow = .ok qc →
      get_yfinance_data t
        = some ⟨info, f, b, c, qf, qb, qc,
            (info.lookup "financialCurrency").getD (Cell.s "Unknown")⟩) := by
  obtain ⟨i, f, b, c, qf, qb, qc⟩ := t
  constructor
  · intro h
    cases i <;> cases f <;> cases b <;> cases c <;> cases qf <;> cases qb <;>
      cases qc <;>
      first
        | rfl
        | simp [YfTicker.allOk, Except.isOk, Except.toBool] at h
  · intro info f' b' c' qf' qb' qc' hi hf hb hc hqf hqb hqc
    cases hi; cases hf; cases hb; cases hc; cases hqf; cases hqb; cases hqc
    rfl

/-- C4 witness: a provider whose balance-sheet access raises yields no
record at all, and a fully-successful provider with an empty profile
yields the full record with currency "Unknown". -/
theorem c4_fetch_atomic_witness :
    get_yfinance_data badTicker = none ∧
    get_yfinance_data okTicker
      = some ⟨[], emptyTable, emptyTable, emptyTable, emptyTable, emptyTable,
          emptyTable, Cell.s "Unknown"⟩ :=
  ⟨(c4_fetch_atomic badTicker).1 rfl,
   (c4_fetch_atomic okTicker).2 [] emptyTable emptyTable emptyTable emptyTable
     emptyTable emptyTable rfl rfl rfl rfl rfl rfl rfl⟩

/-- C8: when resolution yields NotFound (a falsy ticker), the
orchestrator emits the not-found notice, produces no Report, and never
invokes the Financial Data Fetcher (the fetched-ticker trace is empty). -/
theorem c8_notfound_no_fetch (env : Env) (company : String)
    (h : pyFalsy (find_ticker (env.search company)) = true) :
    run_public_diligence env company
      = Except.ok ⟨Outcome.notice ("Ticker not found for " ++ company), []⟩ :=
  run_pd_notfound env company h

/-- C8 witness: a company whose search response has no quotes at all. -/
theorem c8_notfound_no_fetch_witness :
    pyFalsy (find_ticker (envGood.search "Zzzznotarealcompany123")) = true ∧
    run_public_diligence envGood "Zzzznotarealcompany123"
      = Except.ok
          ⟨Outcome.notice "Ticker not found for Zzzznotarealcompany123", []⟩ :=
  ⟨rfl, c8_notfound_no_fetch envGood "Zzzznotarealcompany123" rfl⟩

/-- C10: when the first EQUITY entry of the search response has no symbol
field or an empty-string symbol, the resolver returns that falsy value
immediately — regardless of any later entries, usable or not — and the
orchestrator treats the company as not found: notice, no Report, no
fetch. -/
theorem c10_falsy_first_equity (env : Env) (company : String) (e : Quote)
    (rest : List Quote)
    (hs : env.search company = SearchResponse.ok (e :: rest))
    (hq : e.quoteType = some "EQUITY") (hf : pyFalsy e.symbol = true) :
    find_ticker (env.search company) = e.symbol ∧
    run_public_diligence env company
      = Except.ok ⟨Outcome.notice ("Ticker not found for " ++ company), []⟩ := by
  have h1 : find_ticker (env.search company) = e.symbol := by
    rw [hs]; simp [find_ticker, findTickerLoop, hq]
  exact ⟨h1, run_pd_notfound env company (by rw [h1]; exact hf)⟩

/-- C10 witness: the first EQUITY entry lacks a symbol while the second
EQUITY entry carries the usable symbol "MSFT"; the company is still
skipped as not found. -/
theorem c10_falsy_first_equity_witness :
    envFalsyFirst.search "Z"
        = SearchResponse.ok [noSymQuote, ⟨some "EQUITY", some "MSFT"⟩] ∧
    noSymQuote.quoteType = some "EQUITY" ∧
    pyFalsy noSymQuote.symbol = true ∧
    find_ticker (envFalsyFirst.search "Z") = noSymQuote.symbol ∧
    run_public_diligence envFalsyFirst "Z"
      = Except.ok ⟨Outcome.notice "Ticker not found for Z", []⟩ :=
  ⟨rfl, rfl, rfl,
   (c10_falsy_first_equity envFalsyFirst "Z" noSymQuote
      [⟨some "EQUITY", some "MSFT"⟩] rfl rfl rfl).1,
   (c10_falsy_first_equity envFalsyFirst "Z" noSymQuote
      [⟨some "EQUITY", some "MSFT"⟩] rfl rfl rfl).2⟩

/-- The data rows of a built financial sheet hold the zipped row labels
and converted rows; their count is the table's row count. -/
lemma write_financial_sheet_rows (currency : String) (t : Table) :
    (write_financial_sheet currency t).rows
      = (Cell.s ("Currency: " ++ currency ++ " (in millions)")
          :: List.replicate t.colLabels.length (Cell.s ""))
        :: (t.rowLabels.zip (convert_to_millions t)).map
            (fun p => Cell.s p.1 :: p.2.map optCell) := rfl

/-- Length of the zip underlying the data rows, given a well-shaped
cell matrix. -/
lemma zip_millions_length (t : Table)
    (hlr : t.cells.length = t.rowLabels.length) :
    (t.rowLabels.zip (convert_to_millions t)).length = t.cells.length := by
  rw [List.length_zip, convert_to_millions, List.length_map, ← hlr, min_self]

/-- C2: in a built statement sheet, the data-row cell at the position of
raw cell (i, j) equals the raw value divided by 1000000 when the raw
value is numeric, and is blank (not zero, and the sheet is still
produced) when the raw value is non-numeric or missing. Row `i + 1`
skips the synthetic currency header row and column `j + 1` skips the
promoted line-item label column. -/
theorem c2_cell_millions (currency : String) (t : Table) (i j : ℕ)
    (hlr : t.cells.length = t.rowLabels.length)
    (hi : i < t.cells.length) (hj : j < (t.cells[i]).length) :
    ((write_financial_sheet currency t).rows.getD (i + 1) []).getD (j + 1) Cell.blank
      = match t.cells[i][j] with
        | RawCell.num v => Cell.n (v / 1000000)
        | RawCell.nonnum _ => Cell.blank
        | RawCell.missing => Cell.blank := by
  have hi' : i < ((t.rowLabels.zip (convert_to_millions t)).map
      (fun p => Cell.s p.1 :: p.2.map optCell)).length := by
    rw [List.length_map, zip_millions_length t hlr]; exact hi
  have hiz : i < (t.rowLabels.zip (convert_to_millions t)).length := by
    rw [zip_millions_length t hlr]; exact hi
  rw [write_financial_sheet_rows, List.getD_cons_succ,
    List.getD_eq_getElem _ _ hi', List.getElem_map, List.getElem_zip,
    List.getD_cons_succ]
  have him : i < (convert_to_millions t).length := by
    rw [convert_to_millions, List.length_map]; exact hi
  have hcm : (convert_to_millions t)[i]
      = t.cells[i].map (fun c => c.coerce.map (fun v => v / 1000000)) := by
    simp [convert_to_millions]
  rw [hcm]
  have hj' : j < ((t.cells[i].map
      (fun c => c.coerce.map (fun v => v / 1000000))).map optCell).length := by
    simpa using hj
  rw [List.getD_eq_getElem _ _ hj', List.getElem_map, List.getElem_map]
  cases hc : t.cells[i][j] <;> simp [RawCell.coerce, optCell]

/-- C2 witness: in the sample table, the non-numeric cell "N/A" at
("Goodwill", first period) renders blank and the numeric cell 2000000 at
the second period renders as 2000000 / 1000000. -/
theorem c2_cell_millions_witness :
    ((write_financial_sheet "USD" sampleTable).rows.getD 1 []).getD 1 Cell.blank
        = Cell.blank ∧
    ((write_financial_sheet "USD" sampleTable).rows.getD 1 []).getD 2 Cell.blank
        = Cell.n (2000000 / 1000000) :=
  ⟨c2_cell_millions "USD" sampleTable 0 0 rfl (by decide) (by decide),
   c2_cell_millions "USD" sampleTable 0 1 rfl (by decide) (by decide)⟩

/-- C7: a built statement sheet is one synthetic header row followed by
the data rows: the header's first column holds the literal
`Currency: <currency> (in millions)` and its remaining cells are blank,
it spans exactly the data table's full column width (label column plus
one column per period), and each data row leads with its line-item
label. -/
theorem c7_sheet_layout (currency : String) (t : Table)
    (hlr : t.cells.length = t.rowLabels.length)
    (hw : ∀ row ∈ t.cells, row.length = t.colLabels.length) :
    (write_financial_sheet currency t).rows.length = t.rowLabels.length + 1 ∧
    (write_financial_sheet currency t).rows.getD 0 []
      = Cell.s ("Currency: " ++ currency ++ " (in millions)")
          :: List.replicate t.colLabels.length (Cell.s "") ∧
    ((write_financial_sheet currency t).rows.getD 0 []).length
      = t.colLabels.length + 1 ∧
    (∀ i, i < t.rowLabels.length →
      ((write_financial_sheet currency t).rows.getD (i + 1) []).length
          = t.colLabels.length + 1 ∧
      ((write_financial_sheet currency t).rows.getD (i + 1) []).getD 0 Cell.blank
          = Cell.s (t.rowLabels.getD i "")) := by
  refine ⟨?_, ?_, ?_, ?_⟩
  · rw [write_financial_sheet_rows, List.length_cons, List.length_map,
      zip_millions_length t hlr, hlr]
  · rw [write_financial_sheet_rows, List.getD_cons_zero]
  · rw [write_financial_sheet_rows, List.getD_cons_zero, List.length_cons,
      List.length_replicate]
  · intro i hri
    have hi : i < t.cells.length := by rw [hlr]; exact hri
    have hi' : i < ((t.rowLabels.zip (convert_to_millions t)).map
        (fun p => Cell.s p.1 :: p.2.map optCell)).length := by
      rw [List.length_map, zip_millions_length t hlr]; exact hi
    have hiz : i < (t.rowLabels.zip (convert_to_millions t)).length := by
      rw [zip_millions_length t hlr]; exact hi
    rw [write_financial_sheet_rows, List.getD_cons_succ,
      List.getD_eq_getElem _ _ hi', List.getElem_map, List.getElem_zip]
    constructor
    · have him : i < (convert_to_millions t).length := by
        rw [convert_to_millions, List.length_map]; exact hi
      have hcm : (convert_to_millions t)[i]
          = t.cells[i].map (fun c => c.coerce.map (fun v => v / 1000000)) := by
        simp [convert_to_millions]
      rw [List.length_cons, hcm, List.length_map, List.length_map,
        hw _ (List.getElem_mem hi)]
    · rw [List.getD_cons_zero, List.getD_eq_getElem _ _ hri]

/-- C7 witness: the sample sheet's header row is the currency note
followed by two blanks (matching the data width of three columns), and
the data row leads with "Goodwill". -/
theorem c7_sheet_layout_witness :
    (write_financial_sheet "USD" sampleTable).rows.length = 2 ∧
    (write_financial_sheet "USD" sampleTable).rows.getD 0 []
      = [Cell.s "Currency: USD (in millions)", Cell.s "", Cell.s ""] ∧
    ((write_financial_sheet "USD" sampleTable).rows.getD 1 []).getD 0 Cell.blank
      = Cell.s "Goodwill" :=
  ⟨(c7_sheet_layout "USD" sampleTable rfl (by decide)).1,
   (c7_sheet_layout "USD" sampleTable rfl (by decide)).2.1,
   ((c7_sheet_layout "USD" sampleTable rfl (by decide)).2.2.2 0 (by decide)).2⟩

/-- The workbook written by `save_to_excel`, spelled out. -/
lemma save_to_excel_sheets (n tk : String) (r : FinRecord) (d : String) :
    (save_to_excel n tk r d).1
      = [("Overview",
          { cols := ["Attribute", "Value"],
            rows := r.info.map (fun kv => [Cell.s kv.1, kv.2]) })]
        ++ optSheet (!r.financials.isEmpty) "Annual_Income"
            (write_financial_sheet r.currency.pyStr r.financials)
        ++ optSheet (!r.balance_sheet.isEmpty) "Annual_Balance"
            (write_financial_sheet r.currency.pyStr r.balance_sheet)
        ++ optSheet (!r.cashflow.isEmpty) "Annual_Cashflow"
            (write_financial_sheet r.currency.pyStr r.cashflow)
        ++ optSheet (!r.quarterly_financials.isEmpty) "Quarterly_Income"
            (write_financial_sheet r.currency.pyStr r.quarterly_financials)
        ++ optSheet (!r.quarterly_balance_sheet.isEmpty) "Quarterly_Balance"
            (write_financial_sheet r.currency.pyStr r.quarterly_balance_sheet)
        ++ optSheet (!r.quarterly_cashflow.isEmpty) "Quarterly_Cashflow"
            (write_financial_sheet r.currency.pyStr r.quarterly_cashflow) := rfl

/-- Occurrences of a target name among a guarded sheet's names. -/
lemma count_sheetNames_optSheet (b : Bool) (nm : String) (sh : Sheet)
    (tgt : String) :
    List.count tgt (List.map Prod.fst (optSheet b nm sh))
      = if b ∧ nm = tgt then 1 else 0 := by
  cases b <;> by_cases h : nm = tgt <;>
    simp [optSheet, h, List.count_cons, List.count_nil]

/-- C3 counterexample: a fetched record whose profile dict is empty still
gets an Overview sheet — the builder's guard checks only that `info` is
present and a dict, not that it is non-empty. -/
theorem c3_counterexample :
    emptyInfoRec.info = [] ∧
    "Overview" ∈ sheetNames (save_to_excel "X" "XX" emptyInfoRec "20260101").1 :=
  ⟨rfl, by decide⟩

/-- C3 (amended): the Overview sheet is emitted for every fetched record,
whether or not the profile is empty, exactly once, as a two-column
Attribute/Value table with one row per profile attribute in the
provider's insertion order (an empty profile yields a header-only
sheet). -/
theorem c3_overview_always (n tk : String) (r : FinRecord) (d : String) :
    (sheetNames (save_to_excel n tk r d).1).count "Overview" = 1 ∧
    List.lookup "Overview" (save_to_excel n tk r d).1
      = some { cols := ["Attribute", "Value"],
               rows := r.info.map (fun kv => [Cell.s kv.1, kv.2]) } := by
  constructor
  · rw [save_to_excel_sheets]
    simp only [sheetNames, List.map_append, List.count_append,
      count_sheetNames_optSheet]
    simp [List.count_cons, List.count_nil]
  · rw [save_to_excel_sheets]
    simp [List.lookup_cons]

/-- C6: each of the six statement sheets appears in the output workbook
exactly once when its source table is non-empty and not at all (no blank
or placeholder sheet) when its source table is empty. -/
theorem c6_empty_tables_omitted (n tk : String) (r : FinRecord) (d : String) :
    (sheetNames (save_to_excel n tk r d).1).count "Annual_Income"
        = (if r.financials.isEmpty then 0 else 1) ∧
    (sheetNames (save_to_excel n tk r d).1).count "Annual_Balance"
        = (if r.balance_sheet.isEmpty then 0 else 1) ∧
    (sheetNames (save_to_excel n tk r d).1).count "Annual_Cashflow"
        = (if r.cashflow.isEmpty then 0 else 1) ∧
    (sheetNames (save_to_excel n tk r d).1).count "Quarterly_Income"
        = (if r.quarterly_financials.isEmpty then 0 else 1) ∧
    (sheetNames (save_to_excel n tk r d).1).count "Quarterly_Balance"
        = (if r.quarterly_balance_sheet.isEmpty then 0 else 1) ∧
    (sheetNames (save_to_excel n tk r d).1).count "Quarterly_Cashflow"
        = (if r.quarterly_cashflow.isEmpty then 0 else 1) := by
  refine ⟨?_, ?_, ?_, ?_, ?_, ?_⟩
  · rw [save_to_excel_sheets]
    simp only [sheetNames, List.map_append, List.count_append,
      count_sheetNames_optSheet]
    cases hb : r.financials.isEmpty <;> simp [hb, List.count_cons, List.count_nil]
  · rw [save_to_excel_sheets]
    simp only [sheetNames, List.map_append, List.count_append,
      count_sheetNames_optSheet]
    cases hb : r.balance_sheet.isEmpty <;> simp [hb, List.count_cons, List.count_nil]
  · rw [save_to_excel_sheets]
    simp only [sheetNames, List.map_append, List.count_append,
      count_sheetNames_optSheet]
    cases hb : r.cashflow.isEmpty <;> simp [hb, List.count_cons, List.count_nil]
  · rw [save_to_excel_sheets]
    simp only [sheetNames, List.map_append, List.count_append,
      count_sheetNames_optSheet]
    cases hb : r.quarterly_financials.isEmpty <;>
      simp [hb, List.count_cons, List.count_nil]
  · rw [save_to_excel_sheets]
    simp only [sheetNames, List.map_append, List.count_append,
      count_sheetNames_optSheet]
    cases hb : r.quarterly_balance_sheet.isEmpty <;>
      simp [hb, List.count_cons, List.count_nil]
  · rw [save_to_excel_sheets]
    simp only [sheetNames, List.map_append, List.count_append,
      count_sheetNames_optSheet]
    cases hb : r.quarterly_cashflow.isEmpty <;>
      simp [hb, List.count_cons, List.count_nil]

/-- C9: report building is deterministic in its inputs — the same
company name, ticker, record, and date yield identical workbooks — and
the file name follows the `<ticker>_public_diligence_<YYYYMMDD>.xlsx`
pattern. The embedding threads the single `datetime.now()` read as the
explicit `today` input, per the spec's Clock-capability reading. -/
theorem c9_build_deterministic (n tk : String) (r : FinRecord) (d : String)
    (n2 tk2 : String) (r2 : FinRecord) (d2 : String)
    (hn : n = n2) (htk : tk = tk2) (hr : r = r2) (hd : d = d2) :
    save_to_excel n tk r d = save_to_excel n2 tk2 r2 d2 ∧
    (save_to_excel n tk r d).2 = tk ++ "_public_diligence_" ++ d ++ ".xlsx" := by
  subst hn; subst htk; subst hr; subst hd
  exact ⟨rfl, rfl⟩

/-- C9 witness: building twice from identical concrete inputs gives the
same workbook, and the file name is `AAPL_public_diligence_20261012.xlsx`. -/
theorem c9_build_deterministic_witness :
    save_to_excel "Apple" "AAPL" emptyInfoRec "20261012"
        = save_to_excel "Apple" "AAPL" emptyInfoRec "20261012" ∧
    (save_to_excel "Apple" "AAPL" emptyInfoRec "20261012").2
        = "AAPL_public_diligence_20261012.xlsx" :=
  ⟨(c9_build_deterministic "Apple" "AAPL" emptyInfoRec "20261012"
      "Apple" "AAPL" emptyInfoRec "20261012" rfl rfl rfl rfl).1,
   ((c9_build_deterministic "Apple" "AAPL" emptyInfoRec "20261012"
      "Apple" "AAPL" emptyInfoRec "20261012" rfl rfl rfl rfl).2).trans rfl⟩

/-- C1 counterexample: in `envAbort`, company "A" resolves and fetches
successfully but its report serialization raises; the uncaught exception
escapes `run_public_diligence` and aborts the two-company batch, which
therefore produces no outcome list at all (not the claimed two
outcomes). -/
theorem c1_counterexample :
    run_public_diligence envAbort "A" = Except.error () ∧
    runBatch envAbort ["A", "B"] = Except.error () := ⟨rfl, rfl⟩

/-- C1 (amended): provided no company's report serialization raises, the
batch over N names is total — it produces exactly N outcomes, each a
Report or a notice, and per-company resolution or fetch failures never
abort it (the search and provider oracles are unconstrained here). A
serialization failure, however, is uncaught and aborts the batch. -/
theorem c1_batch_total (env : Env) (names : List String)
    (h : ∀ c ∈ names, env.writeFails c = false) :
    ∃ outs, runBatch env names = Except.ok outs ∧ outs.length = names.length := by
  induction names with
  | nil => exact ⟨[], rfl, rfl⟩
  | cons c rest ih =>
    obtain ⟨r, hr⟩ := run_pd_ok env c (h c (List.mem_cons_self c rest))
    obtain ⟨outs, ho, hl⟩ := ih (fun x hx => h x (List.mem_cons_of_mem c hx))
    exact ⟨r.outcome :: outs, by simp [runBatch, hr, ho], by simp [hl]⟩

/-- C1 witness: a concrete two-company batch in an environment whose
serialization never fails produces exactly two outcomes. -/
theorem c1_batch_total_witness :
    (∀ c ∈ (["A", "B"] : List String), envGood.writeFails c = false) ∧
    ∃ outs, runBatch envGood ["A", "B"] = Except.ok outs ∧ outs.length = 2 :=
  ⟨by decide, c1_batch_total envGood ["A", "B"] (by decide)⟩

end App
